import Mathlib

/-
Verification of the dmpy C extension module (src/unnamed/part_000) against its
natural-language specification.

The development is a shallow embedding of the module's core logic:

* `DmCookie` (the Transaction Token): a 32-bit udev cookie with prefix/base
  sub-fields and a readiness flag, together with the `set_value`,
  `set_prefix`, `set_base` and `udev_wait` operations.
* `DmTask` (the Handle Wrapper): the state/data flag bitset, the per-operation
  flag table `_DmTask_task_type_flags`, the gating check
  `_DmTask_check_data_flags`, `DmTask_run`, and the gated accessors.
* `DmStats` (the Aggregate Handle Wrapper): the sequence counter, the region
  cache of weak references, `DmStats_get_item`, `DmStats_list` /
  `DmStats_populate`, the Region View (`DmStatsRegion`) with its area cache
  and sequence check, and a reference-counting model of the parent/child
  ownership protocol.

Machine integers are modelled as `Nat` with explicit `% 2^32` (or bitmasks)
where C performs conversions; C functions that can set a Python exception
return `Except PyErr _` or pair their state update with `Except PyErr _`.
Calls into the native device-mapper library (an external collaborator) are
modelled by passing the native outcome as an explicit argument, or by a small
model of the native handle (`DmStatsHandle`).
-/

/-! ## Python error model

Each constructor corresponds to one way the C code reports failure.
`gateRequiresIoctl` and `gateNoData` are both raised as `TypeError` by
`_DmTask_check_data_flags`; they are kept separate because the spec
distinguishes the two gate messages. `nullWithoutException` models a C path
that returns NULL (or 0) without setting a Python exception, which CPython
surfaces as a `SystemError`. -/

inductive PyErr where
  | typeError (msg : String)
  | valueError (msg : String)
  | indexError (msg : String)
  | lookupError (msg : String)
  | osError (msg : String)
  | memoryError (msg : String)
  | gateRequiresIoctl (task_type : Nat) (method : String)
  | gateNoData (task_type : Nat) (flag_index : Nat)
  | nullWithoutException
  deriving Repr, DecidableEq

deriving instance DecidableEq for Except

/-! ## DmCookie: the Transaction Token

Source: src/unnamed/part_000 lines 246-440. The cookie value is a
`uint32_t`; the prefix and base sub-fields are `uint16_t`. The mask and
shift constants come from the native library header (libdevmapper.h). -/

def DM_UDEV_FLAGS_SHIFT : Nat := 16

def DM_UDEV_FLAGS_MASK : Nat := 0xffff0000

/-- The C expression `~DM_UDEV_FLAGS_MASK` evaluated at `unsigned` width. -/
def DM_UDEV_FLAGS_MASK_COMPL : Nat := 0xffffffff ^^^ DM_UDEV_FLAGS_MASK

/-- C conversion of an `int` argument to `unsigned` (twos-complement wrap). -/
def toUnsigned (v : Int) : Nat := (v % (2 ^ 32 : Int)).toNat

structure DmCookieObject where
  ob_cookie : Nat       -- uint32_t
  ob_val_pfx : Nat      -- uint16_t ob_val_prefix in the source
  ob_val_base : Nat     -- uint16_t
  ob_ready : Bool       -- Py_True / Py_False
  deriving Repr, DecidableEq

/-- `_dmpy_set_cookie_values`: recompute both sub-fields from `ob_cookie`. -/
def _dmpy_set_cookie_values (self : DmCookieObject) : DmCookieObject :=
  { self with
    ob_val_base := self.ob_cookie &&& DM_UDEV_FLAGS_MASK_COMPL,
    ob_val_pfx := (self.ob_cookie &&& DM_UDEV_FLAGS_MASK) >>> DM_UDEV_FLAGS_SHIFT }

/-- `_dmpy_check_cookie_value`: returns `true` when the check fails (the C
function returns -1 with a ValueError set). The argument is the C `unsigned`
value, so callers convert with `toUnsigned`. -/
def _dmpy_check_cookie_value (value : Nat) : Bool :=
  value > 0xffffffff

/-- `_DmCookie_init`: validate the initial value, store it, derive the
sub-fields, and mark the cookie not ready. -/
def _DmCookie_init (value : Nat) : Except PyErr DmCookieObject :=
  if _dmpy_check_cookie_value value then
    .error (.valueError "DmCookie value out of range.")
  else
    .ok (_dmpy_set_cookie_values
      { ob_cookie := value, ob_val_pfx := 0, ob_val_base := 0, ob_ready := false })

/-- `DmCookie_init`: the `__init__` entry point; the parsed `int` value
(default 0) is converted to `uint32_t` when stored. -/
def DmCookie_init (value : Int) : Except PyErr DmCookieObject :=
  _DmCookie_init (toUnsigned value)

/-- `DmCookie_set_value`. Faithful to the source, including its inverted
check: the C code reads `if (!_dmpy_check_cookie_value(value)) return NULL;`
so the NULL return (without an exception being set) is taken exactly when
the range check PASSES; when the check fails (impossible for an `unsigned`
argument) the code would fall through and store the value anyway. -/
def DmCookie_set_value (self : DmCookieObject) (value : Int) :
    Except PyErr (DmCookieObject × Bool) :=
  if _dmpy_check_cookie_value (toUnsigned value) = false then
    .error .nullWithoutException
  else
    .ok (_dmpy_set_cookie_values { self with ob_cookie := toUnsigned value }, true)

/-- `_dmpy_check_base_or_prefix_value`: returns `true` when the check fails
(the C function returns -1 with a ValueError set). -/
def _dmpy_check_base_or_pfx_value (value : Nat) : Bool :=
  value > 0xffff

/-- `DmCookie_set_prefix` (named `set_pfx` here): replace the high 16-bit
sub-field. The `int` argument is shifted left and OR-ed into the `uint32_t`
cookie; the `% 2^32` models that conversion. -/
def DmCookie_set_pfx (self : DmCookieObject) (pfx : Int) :
    Except PyErr (DmCookieObject × Bool) :=
  if _dmpy_check_base_or_pfx_value (toUnsigned pfx) then
    .error (.valueError "DmCookie prefix value out of range.")
  else
    let p := ((toUnsigned pfx) <<< DM_UDEV_FLAGS_SHIFT) % 2 ^ 32
    let c := (self.ob_cookie &&& DM_UDEV_FLAGS_MASK_COMPL) ||| p
    .ok (_dmpy_set_cookie_values { self with ob_cookie := c }, true)

/-- `DmCookie_set_base`: replace the low 16-bit sub-field. -/
def DmCookie_set_base (self : DmCookieObject) (base : Int) :
    Except PyErr (DmCookieObject × Bool) :=
  if _dmpy_check_base_or_pfx_value (toUnsigned base) then
    .error (.valueError "DmCookie prefix value out of range.")
  else
    let c := (self.ob_cookie &&& DM_UDEV_FLAGS_MASK) ||| (toUnsigned base)
    .ok (_dmpy_set_cookie_values { self with ob_cookie := c }, true)

/-- `_DmCookie_udev_wait`: the native outcome of `dm_udev_wait` (blocking) or
`dm_udev_wait_immediate` (poll) is passed in as `native_r`; for the immediate
variant the polled readiness is `native_ready`, for the blocking variant the
source sets `ready = r`. Returns the updated cookie and the Bool the call
returns to Python. -/
def _DmCookie_udev_wait (self : DmCookieObject) (immediate : Bool)
    (native_r : Bool) (native_ready : Bool) :
    Except PyErr (DmCookieObject × Bool) :=
  if self.ob_ready then
    .error (.valueError "Cannot udev_wait() on a completed DmCookie.")
  else
    let r := native_r
    let ready := if immediate then native_ready else native_r
    let self := if r && ready then { self with ob_ready := true } else self
    .ok (self, r)

/-! ### DmCookie well-formedness -/

/-- A cookie state whose sub-fields agree with `ob_cookie`, as established by
`_dmpy_set_cookie_values`. -/
def DmCookieWF (c : DmCookieObject) : Prop :=
  c.ob_cookie < 2 ^ 32 ∧
  c.ob_val_base = c.ob_cookie &&& DM_UDEV_FLAGS_MASK_COMPL ∧
  c.ob_val_pfx = (c.ob_cookie &&& DM_UDEV_FLAGS_MASK) >>> DM_UDEV_FLAGS_SHIFT

instance (c : DmCookieObject) : Decidable (DmCookieWF c) := by
  unfold DmCookieWF; infer_instance

/-! ### Bit-level helper lemmas -/

lemma mask_compl_eq : DM_UDEV_FLAGS_MASK_COMPL = 0xffff := by decide

lemma and_ffff_eq_mod (x : Nat) : x &&& 0xffff = x % 2 ^ 16 := by
  apply Nat.eq_of_testBit_eq
  intro i
  rw [Nat.testBit_and, Nat.testBit_mod_two_pow]
  have h : (0xffff : Nat) = 2 ^ 16 - 1 := rfl
  rw [h, Nat.testBit_two_pow_sub_one, Bool.and_comm]

lemma testBit_mask (i : Nat) :
    Nat.testBit DM_UDEV_FLAGS_MASK i = (decide (16 ≤ i) && decide (i < 32)) := by
  have h : DM_UDEV_FLAGS_MASK = (2 ^ 16 - 1) <<< 16 := by decide
  rw [h, Nat.testBit_shiftLeft, Nat.testBit_two_pow_sub_one]
  by_cases hi : 16 ≤ i
  · have hiff : (i - 16 < 16) ↔ (i < 32) := by omega
    simp [hi, ge_iff_le, hiff]
  · simp [hi, ge_iff_le]

lemma testBit_ffff (i : Nat) : Nat.testBit 0xffff i = decide (i < 16) := by
  have h : (0xffff : Nat) = 2 ^ 16 - 1 := rfl
  rw [h, Nat.testBit_two_pow_sub_one]

lemma testBit_of_lt_2_16 {p i : Nat} (hp : p < 2 ^ 16) (hi : 16 ≤ i) :
    Nat.testBit p i = false :=
  Nat.testBit_lt_two_pow (Nat.lt_of_lt_of_le hp (Nat.pow_le_pow_right (by norm_num) hi))

lemma testBit_of_lt_2_32 {x i : Nat} (hx : x < 2 ^ 32) (hi : 32 ≤ i) :
    Nat.testBit x i = false :=
  Nat.testBit_lt_two_pow (Nat.lt_of_lt_of_le hx (Nat.pow_le_pow_right (by norm_num) hi))

lemma toUnsigned_lt (v : Int) : toUnsigned v < 2 ^ 32 := by
  unfold toUnsigned
  have h1 : 0 ≤ v % (2 ^ 32 : Int) := Int.emod_nonneg v (by norm_num)
  have h2 : v % (2 ^ 32 : Int) < 2 ^ 32 := Int.emod_lt_of_pos v (by norm_num)
  omega

lemma toUnsigned_ofNat (p : Nat) (hp : p < 2 ^ 32) : toUnsigned (p : Int) = p := by
  unfold toUnsigned
  have h : ((p : Int) % (2 ^ 32 : Int)) = (p : Int) :=
    Int.emod_eq_of_lt (by positivity) (by exact_mod_cast hp)
  rw [h]
  simp

lemma set_pfx_cookie_base (x p : Nat) :
    ((x &&& DM_UDEV_FLAGS_MASK_COMPL) ||| (p <<< 16)) &&& DM_UDEV_FLAGS_MASK_COMPL
      = x &&& DM_UDEV_FLAGS_MASK_COMPL := by
  rw [mask_compl_eq]
  apply Nat.eq_of_testBit_eq
  intro i
  by_cases hi : i < 16
  · have h2 : ¬ 16 ≤ i := by omega
    simp [Nat.testBit_and, Nat.testBit_or, Nat.testBit_shiftLeft, testBit_ffff,
      hi, h2, ge_iff_le]
  · simp [Nat.testBit_and, Nat.testBit_or, Nat.testBit_shiftLeft, testBit_ffff, hi]

lemma set_pfx_cookie_pfx (x p : Nat) (hp : p < 2 ^ 16) :
    (((x &&& DM_UDEV_FLAGS_MASK_COMPL) ||| (p <<< 16)) &&& DM_UDEV_FLAGS_MASK) >>> 16
      = p := by
  apply Nat.eq_of_testBit_eq
  intro j
  rw [Nat.testBit_shiftRight, Nat.testBit_and, testBit_mask, mask_compl_eq]
  by_cases hj : j < 16
  · have h1 : ¬ (16 + j < 16) := by omega
    have h2 : 16 ≤ 16 + j := by omega
    have h3 : 16 + j < 32 := by omega
    have h4 : 16 + j - 16 = j := by omega
    simp [Nat.testBit_or, Nat.testBit_and, Nat.testBit_shiftLeft, testBit_ffff,
      h1, h2, h3, h4, ge_iff_le]
  · have h5 : ¬ (16 + j < 32) := by omega
    simp [h5, testBit_of_lt_2_16 hp (by omega : 16 ≤ j)]

lemma set_base_cookie_base (x b : Nat) (hb : b < 2 ^ 16) :
    ((x &&& DM_UDEV_FLAGS_MASK) ||| b) &&& DM_UDEV_FLAGS_MASK_COMPL = b := by
  rw [mask_compl_eq]
  apply Nat.eq_of_testBit_eq
  intro i
  by_cases hi : i < 16
  · have h2 : ¬ 16 ≤ i := by omega
    simp [Nat.testBit_and, Nat.testBit_or, testBit_mask, testBit_ffff, hi, h2]
  · simp [Nat.testBit_and, Nat.testBit_or, testBit_mask, testBit_ffff, hi,
      testBit_of_lt_2_16 hb (by omega : 16 ≤ i)]

lemma set_base_cookie_pfx (x b : Nat) (hb : b < 2 ^ 16) :
    (((x &&& DM_UDEV_FLAGS_MASK) ||| b) &&& DM_UDEV_FLAGS_MASK) >>> 16
      = (x &&& DM_UDEV_FLAGS_MASK) >>> 16 := by
  apply Nat.eq_of_testBit_eq
  intro j
  rw [Nat.testBit_shiftRight, Nat.testBit_shiftRight]
  by_cases hj : j < 16
  · simp [Nat.testBit_or, Nat.testBit_and, testBit_mask,
      testBit_of_lt_2_16 hb (by omega : 16 ≤ 16 + j)]
  · have h5 : ¬ (16 + j < 32) := by omega
    simp [Nat.testBit_or, Nat.testBit_and, testBit_mask, h5]

lemma cookie_recompose (y : Nat) (hy : y < 2 ^ 32) :
    (((y &&& DM_UDEV_FLAGS_MASK) >>> DM_UDEV_FLAGS_SHIFT) <<< DM_UDEV_FLAGS_SHIFT)
      ||| (y &&& DM_UDEV_FLAGS_MASK_COMPL) = y := by
  rw [mask_compl_eq]
  show (((y &&& DM_UDEV_FLAGS_MASK) >>> 16) <<< 16) ||| (y &&& 0xffff) = y
  apply Nat.eq_of_testBit_eq
  intro i
  rw [Nat.testBit_or, Nat.testBit_shiftLeft]
  by_cases hi : i < 16
  · have h2 : ¬ 16 ≤ i := by omega
    simp [Nat.testBit_and, testBit_ffff, hi, h2, ge_iff_le]
  · have h2 : 16 ≤ i := by omega
    have h4 : 16 + (i - 16) = i := by omega
    by_cases h5 : i < 32
    · simp [Nat.testBit_shiftRight, Nat.testBit_and, testBit_mask, testBit_ffff,
        h2, h4, h5, hi, ge_iff_le]
    · simp [Nat.testBit_shiftRight, Nat.testBit_and, testBit_mask, testBit_ffff,
        h2, h4, h5, hi, ge_iff_le, testBit_of_lt_2_32 hy (by omega : 32 ≤ i)]

lemma set_pfx_cookie_lt (x p : Nat) (hx : x < 2 ^ 32) (hp : p < 2 ^ 16) :
    (x &&& DM_UDEV_FLAGS_MASK_COMPL) ||| (p <<< 16) < 2 ^ 32 := by
  apply Nat.bitwise_lt_two_pow
  · exact Nat.lt_of_le_of_lt (Nat.and_le_left) hx
  · rw [Nat.shiftLeft_eq]
    calc p * 2 ^ 16 < 2 ^ 16 * 2 ^ 16 :=
          (Nat.mul_lt_mul_right (by norm_num)).mpr hp
      _ = 2 ^ 32 := by norm_num

lemma set_base_cookie_lt (x b : Nat) (hx : x < 2 ^ 32) (hb : b < 2 ^ 16) :
    (x &&& DM_UDEV_FLAGS_MASK) ||| b < 2 ^ 32 := by
  apply Nat.bitwise_lt_two_pow
  · exact Nat.lt_of_le_of_lt (Nat.and_le_left) hx
  · exact Nat.lt_of_lt_of_le hb (by norm_num)

lemma set_pfx_ok (c : DmCookieObject) (p : Nat) (hp : p < 2 ^ 16) :
    DmCookie_set_pfx c (p : Int) =
      .ok (_dmpy_set_cookie_values
        { c with ob_cookie :=
            (c.ob_cookie &&& DM_UDEV_FLAGS_MASK_COMPL) ||| (p <<< 16) }, true) := by
  have hc : _dmpy_check_base_or_pfx_value p = false := by
    unfold _dmpy_check_base_or_pfx_value
    simp
    omega
  have hlt : p <<< 16 < 2 ^ 32 := by
    rw [Nat.shiftLeft_eq]
    calc p * 2 ^ 16 < 2 ^ 16 * 2 ^ 16 := (Nat.mul_lt_mul_right (by norm_num)).mpr hp
      _ = 2 ^ 32 := by norm_num
  have hlt2 : p <<< 16 < 4294967296 := hlt
  simp [DmCookie_set_pfx, toUnsigned_ofNat p (lt_trans hp (by norm_num)), hc,
    DM_UDEV_FLAGS_SHIFT, Nat.mod_eq_of_lt hlt, Nat.mod_eq_of_lt hlt2]

lemma set_base_ok (c : DmCookieObject) (b : Nat) (hb : b < 2 ^ 16) :
    DmCookie_set_base c (b : Int) =
      .ok (_dmpy_set_cookie_values
        { c with ob_cookie := (c.ob_cookie &&& DM_UDEV_FLAGS_MASK) ||| b }, true) := by
  have hc : _dmpy_check_base_or_pfx_value b = false := by
    unfold _dmpy_check_base_or_pfx_value
    simp
    omega
  simp [DmCookie_set_base, toUnsigned_ofNat b (lt_trans hb (by norm_num)), hc]

/-- C8: `DmCookie.__init__` and `set_value` are claimed to fail with a range
error exactly above `2^32 - 1` and to succeed, storing the value, otherwise.
The code does not implement this for `set_value`: the result of
`_dmpy_check_cookie_value` is negated at the call site
(`if (!_dmpy_check_cookie_value(value)) return NULL;`), so `set_value`
returns NULL for every in-range value (and an `unsigned` argument can never
be out of range).  This theorem evaluates the code: `set_value` fails for
every cookie and every argument, in particular at the valid input 0. -/
theorem C8_set_value_rejects_every_value :
    (∀ (c : DmCookieObject) (v : Int),
      DmCookie_set_value c v = .error .nullWithoutException) ∧
    DmCookie_set_value ⟨0, 0, 0, false⟩ 0 = .error .nullWithoutException := by
  have hall : ∀ (c : DmCookieObject) (v : Int),
      DmCookie_set_value c v = .error .nullWithoutException := by
    intro c v
    have h := toUnsigned_lt v
    have hc : _dmpy_check_cookie_value (toUnsigned v) = false := by
      unfold _dmpy_check_cookie_value
      simp
      omega
    simp [DmCookie_set_value, hc]
  exact ⟨hall, hall _ _⟩

/-- C9: `udev_wait` fails with a state error on a token already marked
ready; otherwise it returns whether the native wait succeeded, and marks the
token ready only when the call succeeded and readiness was observed.  An
immediate poll that succeeds without readiness leaves the token not ready;
a successful blocking wait marks it ready, so a second wait fails. -/
theorem C9_udev_wait_state_protocol :
    ∀ (c : DmCookieObject) (imm r rdy : Bool),
      (c.ob_ready = true →
        _DmCookie_udev_wait c imm r rdy =
          .error (.valueError "Cannot udev_wait() on a completed DmCookie.")) ∧
      (c.ob_ready = false →
        _DmCookie_udev_wait c imm r rdy =
          .ok ((if r && (if imm then rdy else r) then { c with ob_ready := true }
                else c), r)) ∧
      (c.ob_ready = false →
        _DmCookie_udev_wait c true true false = .ok (c, true)) ∧
      (c.ob_ready = false →
        ∀ c2, _DmCookie_udev_wait c false true rdy = .ok (c2, true) →
          _DmCookie_udev_wait c2 imm r rdy =
            .error (.valueError "Cannot udev_wait() on a completed DmCookie.")) := by
  intro c imm r rdy
  refine ⟨?_, ?_, ?_, ?_⟩
  · intro h
    simp [_DmCookie_udev_wait, h]
  · intro h
    simp [_DmCookie_udev_wait, h]
  · intro h
    simp [_DmCookie_udev_wait, h]
  · intro h c2 heq
    simp [_DmCookie_udev_wait, h] at heq
    subst heq
    simp [_DmCookie_udev_wait]

theorem C9_udev_wait_state_protocol_witness :
    _DmCookie_udev_wait ⟨0, 0, 0, true⟩ false true true =
      .error (.valueError "Cannot udev_wait() on a completed DmCookie.") ∧
    _DmCookie_udev_wait ⟨0, 0, 0, false⟩ true true false =
      .ok (⟨0, 0, 0, false⟩, true) :=
  ⟨(C9_udev_wait_state_protocol ⟨0, 0, 0, true⟩ false true true).1 rfl,
   (C9_udev_wait_state_protocol ⟨0, 0, 0, false⟩ true true false).2.2.1 rfl⟩

/-- C10: on a well-formed token, `set_prefix` with an in-range value changes
only the prefix sub-field and `set_base` only the base sub-field, and after
either mutator the 32-bit cookie equals the recomposition of the two
sub-fields. -/
theorem C10_set_pfx_set_base_frame :
    ∀ (c : DmCookieObject) (p b : Nat), DmCookieWF c → p < 2 ^ 16 → b < 2 ^ 16 →
      (∃ c1, DmCookie_set_pfx c (p : Int) = .ok (c1, true) ∧
        c1.ob_val_pfx = p ∧ c1.ob_val_base = c.ob_val_base ∧
        c1.ob_cookie = (c1.ob_val_pfx <<< DM_UDEV_FLAGS_SHIFT) ||| c1.ob_val_base ∧
        DmCookieWF c1) ∧
      (∃ c2, DmCookie_set_base c (b : Int) = .ok (c2, true) ∧
        c2.ob_val_base = b ∧ c2.ob_val_pfx = c.ob_val_pfx ∧
        c2.ob_cookie = (c2.ob_val_pfx <<< DM_UDEV_FLAGS_SHIFT) ||| c2.ob_val_base ∧
        DmCookieWF c2) := by
  intro c p b hwf hp hb
  obtain ⟨hlt, hbase, hpfx⟩ := hwf
  constructor
  · refine ⟨_, set_pfx_ok c p hp, ?_, ?_, ?_, ?_⟩
    · simp [_dmpy_set_cookie_values, DM_UDEV_FLAGS_SHIFT]
      exact set_pfx_cookie_pfx c.ob_cookie p hp
    · simp [_dmpy_set_cookie_values]
      rw [set_pfx_cookie_base c.ob_cookie p, hbase]
    · simp [_dmpy_set_cookie_values, DM_UDEV_FLAGS_SHIFT]
      exact (cookie_recompose _ (set_pfx_cookie_lt c.ob_cookie p hlt hp)).symm
    · exact ⟨set_pfx_cookie_lt c.ob_cookie p hlt hp, rfl, rfl⟩
  · refine ⟨_, set_base_ok c b hb, ?_, ?_, ?_, ?_⟩
    · simp [_dmpy_set_cookie_values]
      exact set_base_cookie_base c.ob_cookie b hb
    · simp [_dmpy_set_cookie_values, DM_UDEV_FLAGS_SHIFT, hpfx]
      exact set_base_cookie_pfx c.ob_cookie b hb
    · simp [_dmpy_set_cookie_values, DM_UDEV_FLAGS_SHIFT]
      exact (cookie_recompose _ (set_base_cookie_lt c.ob_cookie b hlt hb)).symm
    · exact ⟨set_base_cookie_lt c.ob_cookie b hlt hb, rfl, rfl⟩

theorem C10_set_pfx_set_base_frame_witness :
    DmCookieWF ⟨0, 0, 0, false⟩ ∧ (3 : Nat) < 2 ^ 16 ∧ (5 : Nat) < 2 ^ 16 ∧
    ((∃ c1, DmCookie_set_pfx ⟨0, 0, 0, false⟩ ((3 : Nat) : Int) = .ok (c1, true) ∧
        c1.ob_val_pfx = 3 ∧ c1.ob_val_base = DmCookieObject.ob_val_base ⟨0, 0, 0, false⟩ ∧
        c1.ob_cookie = (c1.ob_val_pfx <<< DM_UDEV_FLAGS_SHIFT) ||| c1.ob_val_base ∧
        DmCookieWF c1) ∧
      (∃ c2, DmCookie_set_base ⟨0, 0, 0, false⟩ ((5 : Nat) : Int) = .ok (c2, true) ∧
        c2.ob_val_base = 5 ∧ c2.ob_val_pfx = DmCookieObject.ob_val_pfx ⟨0, 0, 0, false⟩ ∧
        c2.ob_cookie = (c2.ob_val_pfx <<< DM_UDEV_FLAGS_SHIFT) ||| c2.ob_val_base ∧
        DmCookieWF c2)) :=
  ⟨by decide, by decide, by decide,
   C10_set_pfx_set_base_frame ⟨0, 0, 0, false⟩ 3 5 (by decide) (by decide) (by decide)⟩

/-! ## DmTask: the Handle Wrapper

Source: src/unnamed/part_000 lines 644-849 and the gated `get_*` accessors.
`ob_flags` is a `uint32_t` bitset of state flags (did-ioctl, did-error) and
data flags (one bit per result category). -/

def DMT_DID_IOCTL : Nat := 0x00000001

def DMT_DID_ERROR : Nat := 0x00000002

def DMT_HAVE_INFO : Nat := 0x00000010

def DMT_HAVE_NAME : Nat := 0x00000020

def DMT_HAVE_UUID : Nat := 0x00000040

def DMT_HAVE_DEPS : Nat := 0x00000080

def DMT_HAVE_NAME_LIST : Nat := 0x00000100

def DMT_HAVE_TIMESTAMP : Nat := 0x00000200

def DMT_HAVE_MESSAGE : Nat := 0x00000400

def DMT_HAVE_TABLE : Nat := 0x00000800

def DMT_HAVE_STATUS : Nat := 0x00001000

def DMT_HAVE_TARGET_VERSIONS : Nat := 0x00002000

def DMT_HAVE_IDENTITY : Nat := DMT_HAVE_NAME ||| DMT_HAVE_UUID

/-- The `uint32_t` image of the literal `-1` that the source passes as the
required flag for accessors with no specific data category
(`get_driver_version`, `get_ioctl_timestamp`, `get_errno`). -/
def DMT_FLAG_ALL : Nat := 0xffffffff

/-- `_DmTask_task_type_flags`: expected output flags per `DM_DEVICE_*` task
type, in enum order (CREATE, RELOAD, REMOVE, REMOVE_ALL, SUSPEND, RESUME,
INFO, DEPS, RENAME, VERSION, STATUS, TABLE, WAITEVENT, LIST, CLEAR,
MKNODES, LIST_VERSIONS, TARGET_MSG, SET_GEOMETRY). -/
def _DmTask_task_type_flags : List Nat :=
  [DMT_HAVE_IDENTITY,
   DMT_HAVE_IDENTITY,
   DMT_HAVE_IDENTITY,
   0,
   DMT_HAVE_IDENTITY,
   DMT_HAVE_IDENTITY,
   DMT_HAVE_IDENTITY ||| DMT_HAVE_INFO,
   DMT_HAVE_IDENTITY ||| DMT_HAVE_DEPS,
   DMT_HAVE_IDENTITY,
   0,
   DMT_HAVE_IDENTITY,
   DMT_HAVE_IDENTITY ||| DMT_HAVE_TABLE,
   DMT_HAVE_IDENTITY,
   DMT_HAVE_NAME_LIST,
   DMT_HAVE_IDENTITY,
   0,
   DMT_HAVE_TARGET_VERSIONS,
   DMT_HAVE_IDENTITY ||| DMT_HAVE_MESSAGE,
   DMT_HAVE_IDENTITY]

structure DmTaskObject where
  ob_flags : Nat       -- uint32_t dm_task state flags
  ob_task_type : Nat   -- DM_DEVICE_* type at instantiation
  deriving Repr, DecidableEq

/-- `_DmTask_check_data_flags`: raise TypeError if no ioctl has been
performed, or if `flag` is absent from `self->ob_flags`.  The flag index for
the message is computed by the shift loop, i.e. `Nat.log2 flag`. -/
def _DmTask_check_data_flags (self : DmTaskObject) (flag : Nat)
    (method : String) : Option PyErr :=
  if self.ob_flags &&& DMT_DID_IOCTL = 0 then
    some (.gateRequiresIoctl self.ob_task_type method)
  else if self.ob_flags &&& flag = 0 then
    some (.gateNoData self.ob_task_type (Nat.log2 flag))
  else
    none

/-- `DmTask_init` (successful path): records the task type and clears all
flags.  Native allocation failure raises before any object state exists and
is not needed by the claims. -/
def DmTask_init (type : Nat) : DmTaskObject :=
  { ob_flags := 0, ob_task_type := type }

/-- `DmTask_run`: sets DMT_DID_IOCTL first (even a failing call is recorded
as attempted), then either records the error or ORs in the data flags for
the task type from `_DmTask_task_type_flags`. -/
def DmTask_run (self : DmTaskObject) (native_success : Bool) :
    DmTaskObject × Except PyErr Unit :=
  let self := { self with ob_flags := self.ob_flags ||| DMT_DID_IOCTL }
  if ¬ native_success then
    ({ self with ob_flags := self.ob_flags ||| DMT_DID_ERROR },
     .error (.osError "dm_task_run failed"))
  else
    ({ self with ob_flags :=
         self.ob_flags ||| (_DmTask_task_type_flags.getD self.ob_task_type 0) },
     .ok ())

/-- The shared skeleton of every gated `DmTask_get_*` accessor: run
`_DmTask_check_data_flags` for the accessor's category flag, then (only if
the gate passes) call the native getter and marshal its result. -/
def _DmTask_gated_getter (self : DmTaskObject) (flag : Nat) (method : String)
    (native : Except PyErr Nat) : Except PyErr Nat :=
  match _DmTask_check_data_flags self flag method with
  | some e => .error e
  | none => native

def DmTask_get_info (self : DmTaskObject) (native : Except PyErr Nat) :=
  _DmTask_gated_getter self DMT_HAVE_INFO "get_info" native

def DmTask_get_deps (self : DmTaskObject) (native : Except PyErr Nat) :=
  _DmTask_gated_getter self DMT_HAVE_DEPS "get_deps" native

def DmTask_get_names (self : DmTaskObject) (native : Except PyErr Nat) :=
  _DmTask_gated_getter self DMT_HAVE_NAME_LIST "get_names" native

def DmTask_get_versions (self : DmTaskObject) (native : Except PyErr Nat) :=
  _DmTask_gated_getter self DMT_HAVE_TARGET_VERSIONS "get_versions" native

def DmTask_get_message_response (self : DmTaskObject) (native : Except PyErr Nat) :=
  _DmTask_gated_getter self DMT_HAVE_MESSAGE "get_message_response" native

def DmTask_get_name (self : DmTaskObject) (native : Except PyErr Nat) :=
  _DmTask_gated_getter self DMT_HAVE_NAME "name" native

def DmTask_get_uuid (self : DmTaskObject) (native : Except PyErr Nat) :=
  _DmTask_gated_getter self DMT_HAVE_UUID "get_uuid" native

/-- `DmTask_get_errno`: gate with flag `-1` (all bits), then the source
tests `if (!(self->ob_flags && DMT_DID_ERROR)) return 0;` -- a LOGICAL and
(`&&`, not `&`), so the condition only asks whether `ob_flags` is nonzero,
and the `return 0` is a NULL return without an exception.  Once the gate has
passed, `ob_flags` contains DMT_DID_IOCTL and is nonzero, so the captured
errno is returned whether or not DMT_DID_ERROR is set. -/
def DmTask_get_errno (self : DmTaskObject) (native_errno : Nat) :
    Except PyErr Nat :=
  match _DmTask_check_data_flags self DMT_FLAG_ALL "get_errno" with
  | some e => .error e
  | none =>
    if ¬ (self.ob_flags ≠ 0 ∧ DMT_DID_ERROR ≠ 0) then
      .error .nullWithoutException
    else
      .ok native_errno

/-- The ten data-category bits that a `get_*` accessor can require. -/
def _DmTask_data_flag_categories : List Nat :=
  [DMT_HAVE_INFO, DMT_HAVE_NAME, DMT_HAVE_UUID, DMT_HAVE_DEPS,
   DMT_HAVE_NAME_LIST, DMT_HAVE_TIMESTAMP, DMT_HAVE_MESSAGE, DMT_HAVE_TABLE,
   DMT_HAVE_STATUS, DMT_HAVE_TARGET_VERSIONS]

/-! ### DmTask gating lemmas -/

lemma and_two_pow_sub_one (x n : Nat) : x &&& (2 ^ n - 1) = x % 2 ^ n := by
  apply Nat.eq_of_testBit_eq
  intro i
  rw [Nat.testBit_and, Nat.testBit_mod_two_pow, Nat.testBit_two_pow_sub_one,
    Bool.and_comm]

lemma testBit_one_iff (i : Nat) : Nat.testBit 1 i = decide (i = 0) := by
  rcases i with _ | i
  · rfl
  · rw [Nat.testBit_succ]
    simp [Nat.zero_testBit]

lemma or_one_and_one (T : Nat) : (1 ||| T) &&& 1 = 1 := by
  apply Nat.eq_of_testBit_eq
  intro i
  rw [Nat.testBit_and, Nat.testBit_or, testBit_one_iff]
  rcases i with _ | i
  · simp [testBit_one_iff]
  · simp

lemma or_one_and_cat (T f : Nat) (hf : f &&& 1 = 0) : (1 ||| T) &&& f = T &&& f := by
  have hf0 : f.testBit 0 = false := by
    have h := congrArg (fun x => Nat.testBit x 0) hf
    simp only [Nat.testBit_and, testBit_one_iff, Nat.zero_testBit] at h
    simpa using h
  apply Nat.eq_of_testBit_eq
  intro i
  rw [Nat.testBit_and, Nat.testBit_and, Nat.testBit_or, testBit_one_iff]
  rcases i with _ | i
  · simp [hf0]
  · simp

lemma gated_getter_noioctl (self : DmTaskObject) (f : Nat) (m : String)
    (native : Except PyErr Nat) (hg : self.ob_flags &&& DMT_DID_IOCTL = 0) :
    _DmTask_gated_getter self f m native =
      .error (.gateRequiresIoctl self.ob_task_type m) := by
  unfold _DmTask_gated_getter _DmTask_check_data_flags
  rw [if_pos hg]

lemma gated_getter_nodata (self : DmTaskObject) (f : Nat) (m : String)
    (native : Except PyErr Nat) (hg1 : self.ob_flags &&& DMT_DID_IOCTL ≠ 0)
    (hg2 : self.ob_flags &&& f = 0) :
    _DmTask_gated_getter self f m native =
      .error (.gateNoData self.ob_task_type (Nat.log2 f)) := by
  unfold _DmTask_gated_getter _DmTask_check_data_flags
  rw [if_neg hg1, if_pos hg2]

lemma gated_getter_pass (self : DmTaskObject) (f : Nat) (m : String)
    (native : Except PyErr Nat) (hg1 : self.ob_flags &&& DMT_DID_IOCTL ≠ 0)
    (hg2 : self.ob_flags &&& f ≠ 0) :
    _DmTask_gated_getter self f m native = native := by
  unfold _DmTask_gated_getter _DmTask_check_data_flags
  rw [if_neg hg1, if_neg hg2]

/-- C3: gating monotonicity for the data-category accessors.  For every task
type and every data-category flag: before `run()` the accessor fails with
the requires-ioctl-data gate error; after a failed `run()` it fails with the
does-not-provide gate error; after a successful `run()` it fails with the
does-not-provide gate error when the flag table entry for the task type does
not contain the category, and returns the (successful) native result when it
does. -/
theorem C3_accessor_gating :
    ∀ (t : Nat), t < 19 → ∀ f ∈ _DmTask_data_flag_categories,
      ∀ (m : String) (v : Nat),
      (_DmTask_gated_getter (DmTask_init t) f m (.ok v) =
          .error (.gateRequiresIoctl t m)) ∧
      (_DmTask_gated_getter (DmTask_run (DmTask_init t) false).1 f m (.ok v) =
          .error (.gateNoData t (Nat.log2 f))) ∧
      ((_DmTask_task_type_flags.getD t 0) &&& f = 0 →
        _DmTask_gated_getter (DmTask_run (DmTask_init t) true).1 f m (.ok v) =
          .error (.gateNoData t (Nat.log2 f))) ∧
      ((_DmTask_task_type_flags.getD t 0) &&& f ≠ 0 →
        _DmTask_gated_getter (DmTask_run (DmTask_init t) true).1 f m (.ok v) =
          .ok v) := by
  intro t ht f hf m v
  have hf1 : f &&& 1 = 0 := by fin_cases hf <;> decide
  have hf3 : f &&& 3 = 0 := by fin_cases hf <;> decide
  have h12 : ((0 : Nat) ||| 1) ||| 2 = 3 := by decide
  have e1 : (DmTask_run (DmTask_init t) false).1 = ⟨3, t⟩ := by
    simp [DmTask_run, DmTask_init, DMT_DID_IOCTL, DMT_DID_ERROR, h12]
  have e2 : (DmTask_run (DmTask_init t) true).1 =
      ⟨1 ||| _DmTask_task_type_flags.getD t 0, t⟩ := by
    simp [DmTask_run, DmTask_init, DMT_DID_IOCTL]
  refine ⟨?_, ?_, ?_, ?_⟩
  · refine gated_getter_noioctl _ f m _ ?_
    show (0 : Nat) &&& DMT_DID_IOCTL = 0
    decide
  · rw [e1]
    refine gated_getter_nodata _ f m _ ?_ ?_
    · show (3 : Nat) &&& DMT_DID_IOCTL ≠ 0
      decide
    · show (3 : Nat) &&& f = 0
      rw [Nat.land_comm]
      exact hf3
  · intro h
    rw [e2]
    refine gated_getter_nodata _ f m _ ?_ ?_
    · show (1 ||| _DmTask_task_type_flags.getD t 0) &&& DMT_DID_IOCTL ≠ 0
      rw [DMT_DID_IOCTL, or_one_and_one]
      exact one_ne_zero
    · show (1 ||| _DmTask_task_type_flags.getD t 0) &&& f = 0
      rw [or_one_and_cat _ f hf1]
      exact h
  · intro h
    rw [e2]
    refine gated_getter_pass _ f m _ ?_ ?_
    · show (1 ||| _DmTask_task_type_flags.getD t 0) &&& DMT_DID_IOCTL ≠ 0
      rw [DMT_DID_IOCTL, or_one_and_one]
      exact one_ne_zero
    · show (1 ||| _DmTask_task_type_flags.getD t 0) &&& f ≠ 0
      rw [or_one_and_cat _ f hf1]
      exact h

theorem C3_accessor_gating_witness :
    (6 : Nat) < 19 ∧ DMT_HAVE_INFO ∈ _DmTask_data_flag_categories ∧
    ((_DmTask_gated_getter (DmTask_init 6) DMT_HAVE_INFO "get_info" (.ok 7) =
        .error (.gateRequiresIoctl 6 "get_info")) ∧
      (_DmTask_gated_getter (DmTask_run (DmTask_init 6) false).1 DMT_HAVE_INFO
          "get_info" (.ok 7) = .error (.gateNoData 6 (Nat.log2 DMT_HAVE_INFO))) ∧
      ((_DmTask_task_type_flags.getD 6 0) &&& DMT_HAVE_INFO = 0 →
        _DmTask_gated_getter (DmTask_run (DmTask_init 6) true).1 DMT_HAVE_INFO
          "get_info" (.ok 7) = .error (.gateNoData 6 (Nat.log2 DMT_HAVE_INFO))) ∧
      ((_DmTask_task_type_flags.getD 6 0) &&& DMT_HAVE_INFO ≠ 0 →
        _DmTask_gated_getter (DmTask_run (DmTask_init 6) true).1 DMT_HAVE_INFO
          "get_info" (.ok 7) = .ok 7)) :=
  ⟨by decide, by decide,
   C3_accessor_gating 6 (by decide) DMT_HAVE_INFO (by decide) "get_info" 7⟩

/-- C6 counterexample: after a successful `run()` of a CREATE task the
did-error bit is clear, yet `get_errno` does NOT fail with a gating error --
it returns the captured native errno (here 5).  The claim that `get_errno`
requires the did-error bit is therefore false on the code. -/
theorem C6_counterexample_success_run_returns_errno :
    (DmTask_run (DmTask_init 0) true).1.ob_flags &&& DMT_DID_ERROR = 0 ∧
    DmTask_get_errno (DmTask_run (DmTask_init 0) true).1 5 = .ok 5 :=
  ⟨by decide, by decide⟩

/-- C6 amended: `get_errno` gates only on the did-ioctl bit (the source
passes `-1`, all categories, to the gate; the subsequent did-error test uses
a logical `&&` and can never fire once the gate has passed).  So it fails
with the requires-ioctl gate error exactly when `run()` has never been
called, and otherwise returns the captured native error code. -/
theorem C6_get_errno_gates_only_on_ioctl :
    ∀ (self : DmTaskObject) (e : Nat),
      (self.ob_flags &&& DMT_DID_IOCTL = 0 →
        DmTask_get_errno self e =
          .error (.gateRequiresIoctl self.ob_task_type "get_errno")) ∧
      (self.ob_flags &&& DMT_DID_IOCTL ≠ 0 →
        DmTask_get_errno self e = .ok e) := by
  intro self e
  constructor
  · intro h
    unfold DmTask_get_errno _DmTask_check_data_flags
    rw [if_pos h]
  · intro h
    have hmod : self.ob_flags % 2 = 1 := by
      have h1 : self.ob_flags &&& 1 = self.ob_flags % 2 := Nat.and_one_is_mod _
      rw [DMT_DID_IOCTL] at h
      omega
    have hnz : self.ob_flags ≠ 0 := by omega
    have hall : self.ob_flags &&& DMT_FLAG_ALL ≠ 0 := by
      have h2 : (0xffffffff : Nat) = 2 ^ 32 - 1 := by norm_num
      rw [DMT_FLAG_ALL, h2, and_two_pow_sub_one]
      have h3 : self.ob_flags % 2 ^ 32 % 2 = self.ob_flags % 2 :=
        Nat.mod_mod_of_dvd _ (by norm_num)
      omega
    unfold DmTask_get_errno _DmTask_check_data_flags
    rw [if_neg h, if_neg hall,
      if_neg (not_not_intro ⟨hnz, by decide⟩ :
        ¬ ¬ (self.ob_flags ≠ 0 ∧ DMT_DID_ERROR ≠ 0))]

theorem C6_get_errno_gates_only_on_ioctl_witness :
    ((⟨0, 0⟩ : DmTaskObject).ob_flags &&& DMT_DID_IOCTL = 0 ∧
      DmTask_get_errno ⟨0, 0⟩ 7 = .error (.gateRequiresIoctl 0 "get_errno")) ∧
    ((⟨3, 0⟩ : DmTaskObject).ob_flags &&& DMT_DID_IOCTL ≠ 0 ∧
      DmTask_get_errno ⟨3, 0⟩ 7 = .ok 7) :=
  ⟨⟨by decide, (C6_get_errno_gates_only_on_ioctl ⟨0, 0⟩ 7).1 (by decide)⟩,
   ⟨by decide, (C6_get_errno_gates_only_on_ioctl ⟨3, 0⟩ 7).2 (by decide)⟩⟩

/-! ## DmStats: the Aggregate Handle Wrapper

Source: src/unnamed/part_000 lines 1901-2935.  The native `struct dm_stats`
handle is modelled by `DmStatsHandle`: the set of regions currently present
in the handle's tables, each with its area count and precise-timestamps
flag.  The Python-side state (the `DmStatsObject`, the live Region View and
Area View objects, and the weak-reference caches) lives in a `DmpyWorld`.
Weak references are modelled by storing the referent's object id in a cache
slot; the referent is alive exactly while its id is in the corresponding
heap, and the host collecting unreferenced views removes their ids. -/

structure NativeRegion where
  region_id : Nat
  nr_areas : Nat
  precise : Bool
  deriving Repr, DecidableEq

structure DmStatsHandle where
  regions : List NativeRegion
  deriving Repr, DecidableEq

def dm_stats_region_present (dms : DmStatsHandle) (region_id : Nat) : Bool :=
  dms.regions.any (fun r => r.region_id == region_id)

def dm_stats_get_region_nr_areas (dms : DmStatsHandle) (region_id : Nat) : Nat :=
  match dms.regions.find? (fun r => r.region_id == region_id) with
  | some r => r.nr_areas
  | none => 0

def dm_stats_get_nr_areas (dms : DmStatsHandle) : Nat :=
  (dms.regions.map (fun r => r.nr_areas)).sum

def dm_stats_get_region_precise_timestamps (dms : DmStatsHandle)
    (region_id : Nat) : Bool :=
  match dms.regions.find? (fun r => r.region_id == region_id) with
  | some r => r.precise
  | none => false

/-- The maximum region id found by the `dm_stats_foreach_region` loop in
`_DmStats_set_region_cache` (`max_region` starts at 0). -/
def dm_stats_max_region_id (dms : DmStatsHandle) : Nat :=
  (dms.regions.map (fun r => r.region_id)).foldl max 0

/-- A Region View (`DmStatsRegionObject`): region id, the parent sequence
number observed at creation, and the area cache of weak references. -/
structure DmStatsRegionObject where
  ob_region_id : Nat
  ob_sequence : Nat
  ob_areas : List (Option Nat)
  deriving Repr, DecidableEq

/-- The aggregate wrapper (`DmStatsObject`): native handle, sequence number
and the region cache of weak references. -/
structure DmStatsObject where
  ob_dms : DmStatsHandle
  ob_sequence : Nat
  ob_regions : List (Option Nat)
  deriving Repr, DecidableEq

/-- The world: one aggregate wrapper plus the live Region View and Area View
objects, addressed by object id.  `regionHeap` / `areaHeap` hold exactly
the views that are still referenced; `nextId` generates fresh identities. -/
structure DmpyWorld where
  stats : DmStatsObject
  regionHeap : List (Nat × DmStatsRegionObject)
  areaHeap : List (Nat × Nat)
  nextId : Nat
  deriving Repr, DecidableEq

def heapLookup {α : Type} (h : List (Nat × α)) (k : Nat) : Option α :=
  match h with
  | [] => none
  | (k2, v) :: rest => if k2 = k then some v else heapLookup rest k

def heapUpdate {α : Type} (h : List (Nat × α)) (k : Nat) (f : α → α) :
    List (Nat × α) :=
  match h with
  | [] => []
  | (k2, v) :: rest =>
    if k2 = k then (k2, f v) :: heapUpdate rest k f
    else (k2, v) :: heapUpdate rest k f

def heapRemove {α : Type} (h : List (Nat × α)) (ks : List Nat) :
    List (Nat × α) :=
  match h with
  | [] => []
  | p :: rest =>
    if p.1 ∈ ks then heapRemove rest ks else p :: heapRemove rest ks

/-- The host dropping the last strong reference to some Region Views: the
collected views disappear from the heap, so the weak references held in the
region cache no longer resolve. -/
def collectRegions (w : DmpyWorld) (rids : List Nat) : DmpyWorld :=
  { w with regionHeap := heapRemove w.regionHeap rids }

/-- The host dropping the last strong reference to some Area Views. -/
def collectAreas (w : DmpyWorld) (aids : List Nat) : DmpyWorld :=
  { w with areaHeap := heapRemove w.areaHeap aids }

/-- `_DmStatsRegion_set_area_cache`: size the area cache for a region from
`dm_stats_get_region_nr_areas`; a zero count leaves the cache unallocated
(`ob_areas == NULL`, length 0). -/
def _DmStatsRegion_set_area_cache (dms : DmStatsHandle) (region_id : Nat) :
    List (Option Nat) :=
  let nr_slots := dm_stats_get_region_nr_areas dms region_id
  if nr_slots ≠ 0 then List.replicate nr_slots none else []

/-- The cache-miss path of `DmStats_get_item`: `newDmStatsRegionObject`
allocates a fresh Region View recording the current sequence number and
taking a strong reference on the parent; a weak reference to it is stored
in slot `i` and its area cache is sized.  The new object id is `w.nextId`. -/
def cacheNewRegion (w : DmpyWorld) (i : Nat) : DmpyWorld :=
  let rid := w.nextId
  let reg : DmStatsRegionObject :=
    { ob_region_id := i, ob_sequence := w.stats.ob_sequence,
      ob_areas := _DmStatsRegion_set_area_cache w.stats.ob_dms i }
  { w with
      stats := { w.stats with ob_regions := w.stats.ob_regions.set i (some rid) },
      regionHeap := (rid, reg) :: w.regionHeap,
      nextId := w.nextId + 1 }

/-- `DmStats_get_item`: bounds-check against the region cache length, return
`None` for a region the native layer reports absent, otherwise run the
cache lookup/creation protocol and return the Region View object id. -/
def DmStats_get_item (w : DmpyWorld) (i : Int) :
    Except PyErr (DmpyWorld × Option Nat) :=
  if i < 0 ∨ (w.stats.ob_regions.length : Int) ≤ i then
    .error (.indexError "DmStats region_id out of range")
  else if ¬ dm_stats_region_present w.stats.ob_dms i.toNat then
    .ok (w, none)
  else
    match w.stats.ob_regions.getD i.toNat none with
    | none =>
      .ok (cacheNewRegion w i.toNat, some w.nextId)
    | some rid =>
      match heapLookup w.regionHeap rid with
      | some _ => .ok (w, some rid)
      | none =>
        let w1 := { w with stats :=
          { w.stats with ob_regions := w.stats.ob_regions.set i.toNat none } }
        .ok (cacheNewRegion w1 i.toNat, some w1.nextId)

/-- `_DmStatsRegion_sequence_check`: LookupError when the view's recorded
sequence number no longer matches the parent's. -/
def _DmStatsRegion_sequence_check (w : DmpyWorld) (rid : Nat) : Option PyErr :=
  match heapLookup w.regionHeap rid with
  | none => some .nullWithoutException
  | some reg =>
    if reg.ob_sequence ≠ w.stats.ob_sequence then
      some (.lookupError "Attempt to access regions in changed DmStats object.")
    else
      none

def DmStatsRegion_nr_areas_getter (w : DmpyWorld) (rid : Nat) :
    Except PyErr Nat :=
  match _DmStatsRegion_sequence_check w rid with
  | some e => .error e
  | none =>
    match heapLookup w.regionHeap rid with
    | none => .error .nullWithoutException
    | some reg =>
      .ok (dm_stats_get_region_nr_areas w.stats.ob_dms reg.ob_region_id)

def DmStatsRegion_present_getter (w : DmpyWorld) (rid : Nat) :
    Except PyErr Bool :=
  match _DmStatsRegion_sequence_check w rid with
  | some e => .error e
  | none =>
    match heapLookup w.regionHeap rid with
    | none => .error .nullWithoutException
    | some reg =>
      .ok (dm_stats_region_present w.stats.ob_dms reg.ob_region_id)

def DmStatsRegion_precise_timestamps_getter (w : DmpyWorld) (rid : Nat) :
    Except PyErr Bool :=
  match _DmStatsRegion_sequence_check w rid with
  | some e => .error e
  | none =>
    match heapLookup w.regionHeap rid with
    | none => .error .nullWithoutException
    | some reg =>
      .ok (dm_stats_get_region_precise_timestamps w.stats.ob_dms
        reg.ob_region_id)

/-- The cache-miss path of `DmStatsRegion_get_item`: `newDmStatsAreaObject`
allocates a fresh Area View (strong reference on the parent DmStats), and a
weak reference to it is stored in slot `j` of the area cache. -/
def cacheNewArea (w : DmpyWorld) (rid : Nat) (j : Nat) : DmpyWorld :=
  let aid := w.nextId
  { w with
      areaHeap := (aid, j) :: w.areaHeap,
      regionHeap := heapUpdate w.regionHeap rid
        (fun reg => { reg with ob_areas := reg.ob_areas.set j (some aid) }),
      nextId := w.nextId + 1 }

/-- `DmStatsRegion_get_item`: indexed access into the area cache.  NOTE:
faithful to the source, this performs NO sequence check -- it bounds-checks
against the view's area cache, consults the native presence test, and runs
the cache lookup/creation protocol. -/
def DmStatsRegion_get_item (w : DmpyWorld) (rid : Nat) (j : Int) :
    Except PyErr (DmpyWorld × Option Nat) :=
  match heapLookup w.regionHeap rid with
  | none => .error .nullWithoutException
  | some reg =>
    if j < 0 ∨ (reg.ob_areas.length : Int) ≤ j then
      .error (.indexError "DmStats area_id out of range")
    else if ¬ dm_stats_region_present w.stats.ob_dms reg.ob_region_id then
      .ok (w, none)
    else
      match reg.ob_areas.getD j.toNat none with
      | none =>
        .ok (cacheNewArea w rid j.toNat, some w.nextId)
      | some aid =>
        match heapLookup w.areaHeap aid with
        | some _ => .ok (w, some aid)
        | none =>
          let h1 := heapUpdate w.regionHeap rid
            (fun reg => { reg with ob_areas := reg.ob_areas.set j.toNat none })
          let w1 := { w with regionHeap := h1 }
          .ok (cacheNewArea w1 rid j.toNat, some w1.nextId)

/-- `_DmStatsRegion_clear_area_cache`: drop every weak reference in the area
cache and free the array (length becomes 0). -/
def _DmStatsRegion_clear_area_cache (reg : DmStatsRegionObject) :
    DmStatsRegionObject :=
  { reg with ob_areas := [] }

/-- `_DmStats_clear_region_cache`: for every cached weak reference whose
referent is still alive, clear that Region View's area cache; then release
all weak references and free the region cache array. -/
def _DmStats_clear_region_cache (w : DmpyWorld) : DmpyWorld :=
  let regionHeap := w.stats.ob_regions.foldl
    (fun h slot =>
      match slot with
      | some rid => heapUpdate h rid _DmStatsRegion_clear_area_cache
      | none => h) w.regionHeap
  { w with regionHeap := regionHeap,
           stats := { w.stats with ob_regions := [] } }

/-- `_DmStats_set_region_cache`: after a successful list/populate, allocate
a region cache sized to the highest region id plus one (only when the handle
has any areas at all). -/
def _DmStats_set_region_cache (w : DmpyWorld) : DmpyWorld :=
  if dm_stats_get_nr_areas w.stats.ob_dms ≠ 0 then
    { w with stats := { w.stats with
        ob_regions := List.replicate (dm_stats_max_region_id w.stats.ob_dms + 1)
          none } }
  else w

/-- `DmStats_list`: clear the region cache, call `dm_stats_list` (the new
native table, or `none` for native failure), and on success increment the
sequence number and rebuild the region cache. -/
def DmStats_list (w : DmpyWorld) (native : Option DmStatsHandle) :
    DmpyWorld × Except PyErr Unit :=
  let w := _DmStats_clear_region_cache w
  match native with
  | none =>
    (w, .error (.osError "Failed to get region list from device-mapper."))
  | some dms =>
    let st := { w.stats with ob_dms := dms, ob_sequence := w.stats.ob_sequence + 1 }
    let w := { w with stats := st }
    (_DmStats_set_region_cache w, .ok ())

/-- `DmStats_populate`: identical clear/rebuild discipline to `list`. -/
def DmStats_populate (w : DmpyWorld) (native : Option DmStatsHandle) :
    DmpyWorld × Except PyErr Unit :=
  let w := _DmStats_clear_region_cache w
  match native with
  | none =>
    (w, .error (.osError "Failed to get region data from device-mapper."))
  | some dms =>
    let st := { w.stats with ob_dms := dms, ob_sequence := w.stats.ob_sequence + 1 }
    let w := { w with stats := st }
    (_DmStats_set_region_cache w, .ok ())

/-- `DmStats_bind_name`: empty-name check, native rebind, then increment the
sequence number.  The Python-side caches are NOT cleared (faithful to the
source); the native library contract is that binding a handle to a new
device clears its previous tables, so the rebound handle has no regions. -/
def DmStats_bind_name (w : DmpyWorld) (name : String) (native_ok : Bool) :
    DmpyWorld × Except PyErr Bool :=
  if name.length = 0 then
    (w, .error (.valueError "DmStats name cannot be empty or None."))
  else if ¬ native_ok then
    (w, .error (.osError "Failed to bind DmStats to name."))
  else
    let st := { w.stats with ob_dms := (⟨[]⟩ : DmStatsHandle),
                              ob_sequence := w.stats.ob_sequence + 1 }
    ({ w with stats := st }, .ok true)


/-! ### Heap lemmas -/

lemma heapLookup_cons_self {α : Type} (k : Nat) (v : α) (h : List (Nat × α)) :
    heapLookup ((k, v) :: h) k = some v := by
  simp [heapLookup]

lemma heapLookup_remove {α : Type} (h : List (Nat × α)) (ks : List Nat)
    (k : Nat) (hk : k ∉ ks) :
    heapLookup (heapRemove h ks) k = heapLookup h k := by
  induction h with
  | nil => rfl
  | cons p rest ih =>
    rcases p with ⟨k2, v⟩
    simp only [heapRemove]
    by_cases hp : k2 ∈ ks
    · rw [if_pos hp, ih]
      have hne : k2 ≠ k := fun he => hk (he ▸ hp)
      simp [heapLookup, hne]
    · rw [if_neg hp]
      simp only [heapLookup]
      by_cases he : k2 = k
      · simp [he]
      · simp [he, ih]

lemma heapLookup_update_self {α : Type} (h : List (Nat × α)) (k : Nat)
    (f : α → α) :
    heapLookup (heapUpdate h k f) k = (heapLookup h k).map f := by
  induction h with
  | nil => rfl
  | cons p rest ih =>
    rcases p with ⟨k2, v⟩
    simp only [heapUpdate]
    by_cases he : k2 = k
    · rw [if_pos he]
      simp [heapLookup, he]
    · rw [if_neg he]
      simp [heapLookup, he, ih]

lemma getD_set_self (l : List (Option Nat)) (i : Nat) (v : Option Nat)
    (hi : i < l.length) :
    (l.set i v).getD i none = v := by
  rw [List.getD_eq_getElem?_getD, List.getElem?_set]
  simp [hi]

/-! ### DmStats_get_item characterisation -/

/-- What a successful indexed access returning a Region View implies about
the resulting world: the native handle, sequence and cache length are
unchanged, the access was in bounds on a present region, slot `i` now
caches `rid`, and the view `rid` is live. -/
lemma get_item_ok_facts (w w1 : DmpyWorld) (i : Int) (rid : Nat)
    (h : DmStats_get_item w i = .ok (w1, some rid)) :
    w1.stats.ob_dms = w.stats.ob_dms ∧
    w1.stats.ob_regions.length = w.stats.ob_regions.length ∧
    ¬ (i < 0 ∨ (w.stats.ob_regions.length : Int) ≤ i) ∧
    dm_stats_region_present w.stats.ob_dms i.toNat = true ∧
    w1.stats.ob_regions.getD i.toNat none = some rid ∧
    (∃ reg, heapLookup w1.regionHeap rid = some reg) := by
  unfold DmStats_get_item at h
  split at h
  · exact absurd h (by simp)
  next hb =>
    split at h
    · exact absurd h (by simp)
    next hp2 =>
      have hp : dm_stats_region_present w.stats.ob_dms i.toNat = true := by
        revert hp2
        by_cases hq : dm_stats_region_present w.stats.ob_dms i.toNat = true
        · intro _; exact hq
        · intro hc; exact absurd (by simpa using hq) hc
      have hi : i.toNat < w.stats.ob_regions.length := by omega
      split at h
      · simp only [Except.ok.injEq, Prod.mk.injEq, Option.some.injEq] at h
        obtain ⟨hw1, hrid⟩ := h
        subst hw1
        subst hrid
        refine ⟨rfl, by simp [cacheNewRegion], hb, hp, ?_, ?_⟩
        · simp only [cacheNewRegion]
          exact getD_set_self _ _ _ hi
        · exact ⟨_, heapLookup_cons_self _ _ _⟩
      next rid0 hslot =>
        split at h
        · simp only [Except.ok.injEq, Prod.mk.injEq, Option.some.injEq] at h
          obtain ⟨hw1, hrid⟩ := h
          subst hw1
          subst hrid
          next reg hlook =>
            exact ⟨rfl, rfl, hb, hp, hslot, ⟨reg, hlook⟩⟩
        · simp only [Except.ok.injEq, Prod.mk.injEq, Option.some.injEq] at h
          obtain ⟨hw1, hrid⟩ := h
          subst hw1
          subst hrid
          refine ⟨rfl, by simp [cacheNewRegion], hb, hp, ?_, ?_⟩
          · simp only [cacheNewRegion]
            exact getD_set_self _ _ _ (by simpa using hi)
          · exact ⟨_, heapLookup_cons_self _ _ _⟩

/-- A cache hit returns the cached view id and leaves the world unchanged. -/
lemma get_item_hit (w : DmpyWorld) (i : Int) (rid : Nat)
    (reg : DmStatsRegionObject)
    (hb : ¬ (i < 0 ∨ (w.stats.ob_regions.length : Int) ≤ i))
    (hp : dm_stats_region_present w.stats.ob_dms i.toNat = true)
    (hslot : w.stats.ob_regions.getD i.toNat none = some rid)
    (hlook : heapLookup w.regionHeap rid = some reg) :
    DmStats_get_item w i = .ok (w, some rid) := by
  unfold DmStats_get_item
  rw [if_neg hb, if_neg (by simp [hp])]
  split
  · next hslot2 =>
    rw [hslot] at hslot2
    cases hslot2
  · next rid0 hslot2 =>
    rw [hslot] at hslot2
    cases hslot2
    split
    · rfl
    · next hlook2 =>
      rw [hlook] at hlook2
      cases hlook2

/-- What a successful indexed access through a Region View returning an Area
View implies: the aggregate state is unchanged, the region object is live
with slot `j` of its area cache now holding `aid`, and the area `aid` is
live. -/
lemma region_get_item_ok_facts (w w1 : DmpyWorld) (rid : Nat) (j : Int)
    (aid : Nat)
    (h : DmStatsRegion_get_item w rid j = .ok (w1, some aid)) :
    w1.stats = w.stats ∧
    (∃ reg1, heapLookup w1.regionHeap rid = some reg1 ∧
      ¬ (j < 0 ∨ (reg1.ob_areas.length : Int) ≤ j) ∧
      dm_stats_region_present w1.stats.ob_dms reg1.ob_region_id = true ∧
      reg1.ob_areas.getD j.toNat none = some aid) ∧
    (∃ a, heapLookup w1.areaHeap aid = some a) := by
  unfold DmStatsRegion_get_item at h
  split at h
  · exact absurd h (by simp)
  next reg hr =>
    split at h
    · exact absurd h (by simp)
    next hb =>
      split at h
      · exact absurd h (by simp)
      next hp2 =>
        have hp : dm_stats_region_present w.stats.ob_dms reg.ob_region_id
            = true := by
          revert hp2
          by_cases hq : dm_stats_region_present w.stats.ob_dms reg.ob_region_id
              = true
          · intro _; exact hq
          · intro hc; exact absurd (by simpa using hq) hc
        have hj : j.toNat < reg.ob_areas.length := by omega
        split at h
        · next hslot =>
          simp only [Except.ok.injEq, Prod.mk.injEq, Option.some.injEq] at h
          obtain ⟨hw1, haid⟩ := h
          subst hw1
          subst haid
          refine ⟨rfl, ?_, ?_⟩
          · refine ⟨{ reg with ob_areas := reg.ob_areas.set j.toNat (some w.nextId) }, ?_, ?_, ?_, ?_⟩
            · simp only [cacheNewArea]
              rw [heapLookup_update_self, hr]
              rfl
            · simp only [List.length_set]
              exact hb
            · simpa [cacheNewArea] using hp
            · exact getD_set_self _ _ _ hj
          · exact ⟨_, heapLookup_cons_self _ _ _⟩
        · next aid0 hslot =>
          split at h
          · next a hlook =>
            simp only [Except.ok.injEq, Prod.mk.injEq, Option.some.injEq] at h
            obtain ⟨hw1, haid⟩ := h
            subst hw1
            subst haid
            exact ⟨rfl, ⟨reg, hr, hb, hp, hslot⟩, ⟨a, hlook⟩⟩
          · next hlook =>
            simp only [Except.ok.injEq, Prod.mk.injEq, Option.some.injEq] at h
            obtain ⟨hw1, haid⟩ := h
            subst hw1
            subst haid
            refine ⟨rfl, ?_, ?_⟩
            · refine ⟨{ reg with ob_areas := (reg.ob_areas.set j.toNat none).set j.toNat (some w.nextId) }, ?_, ?_, ?_, ?_⟩
              · simp only [cacheNewArea]
                rw [heapLookup_update_self, heapLookup_update_self, hr]
                rfl
              · simp only [List.length_set]
                exact hb
              · simpa [cacheNewArea] using hp
              · exact getD_set_self _ _ _ (by simpa using hj)
            · exact ⟨_, heapLookup_cons_self _ _ _⟩

/-- A cache hit in the area cache returns the cached Area View id and leaves
the world unchanged. -/
lemma region_get_item_hit (w : DmpyWorld) (rid : Nat) (j : Int) (aid : Nat)
    (reg : DmStatsRegionObject) (a : Nat)
    (hr : heapLookup w.regionHeap rid = some reg)
    (hb : ¬ (j < 0 ∨ (reg.ob_areas.length : Int) ≤ j))
    (hp : dm_stats_region_present w.stats.ob_dms reg.ob_region_id = true)
    (hslot : reg.ob_areas.getD j.toNat none = some aid)
    (hlook : heapLookup w.areaHeap aid = some a) :
    DmStatsRegion_get_item w rid j = .ok (w, some aid) := by
  unfold DmStatsRegion_get_item
  rw [hr]
  simp only []
  rw [if_neg hb, if_neg (by simp [hp])]
  split
  · next hslot2 =>
    rw [hslot] at hslot2
    cases hslot2
  · next aid0 hslot2 =>
    rw [hslot] at hslot2
    cases hslot2
    split
    · rfl
    · next hlook2 =>
      rw [hlook] at hlook2
      cases hlook2

/-- C1: with a populated tree, two consecutive indexed accesses to the same
present region id -- with no intervening list/populate/bind call and with
the first returned view still referenced (any other views may have been
collected in between) -- return the same object identity; the identical
protocol holds for indexed access to areas through a Region View. -/
theorem C1_cached_view_identity :
    (∀ (w w1 : DmpyWorld) (i : Int) (rid : Nat) (dead : List Nat),
      DmStats_get_item w i = .ok (w1, some rid) →
      rid ∉ dead →
      DmStats_get_item (collectRegions w1 dead) i =
        .ok (collectRegions w1 dead, some rid)) ∧
    (∀ (w w1 : DmpyWorld) (rid : Nat) (j : Int) (aid : Nat) (dead : List Nat),
      DmStatsRegion_get_item w rid j = .ok (w1, some aid) →
      aid ∉ dead →
      DmStatsRegion_get_item (collectAreas w1 dead) rid j =
        .ok (collectAreas w1 dead, some aid)) := by
  constructor
  · intro w w1 i rid dead h hdead
    obtain ⟨hdms, hlen, hb, hp, hslot, reg, hlook⟩ :=
      get_item_ok_facts w w1 i rid h
    apply get_item_hit _ _ _ reg
    · simpa [collectRegions, hlen] using hb
    · simpa [collectRegions, hdms] using hp
    · simpa [collectRegions] using hslot
    · show heapLookup (heapRemove w1.regionHeap dead) rid = some reg
      rw [heapLookup_remove _ _ _ hdead]
      exact hlook
  · intro w w1 rid j aid dead h hdead
    obtain ⟨hstats, ⟨reg1, hr, hb, hp, hslot⟩, a, hlook⟩ :=
      region_get_item_ok_facts w w1 rid j aid h
    apply region_get_item_hit _ _ _ _ reg1 a
    · simpa [collectAreas] using hr
    · exact hb
    · simpa [collectAreas] using hp
    · exact hslot
    · show heapLookup (heapRemove w1.areaHeap dead) aid = some a
      rw [heapLookup_remove _ _ _ hdead]
      exact hlook

/-- A one-region world (region id 0, one area) with a populated tree at
sequence number 1 and an empty region cache of length 1. -/
def wOneRegion : DmpyWorld :=
  ⟨⟨⟨[⟨0, 1, false⟩]⟩, 1, [none]⟩, [], [], 0⟩

/-- `wOneRegion` after region 0 has been materialised (object id 0). -/
def wOneRegionView : DmpyWorld := cacheNewRegion wOneRegion 0

/-- `wOneRegionView` after area 0 of that region has been materialised
(object id 1). -/
def wOneAreaView : DmpyWorld := cacheNewArea wOneRegionView 0 0

theorem C1_cached_view_identity_witness :
    DmStats_get_item wOneRegion 0 = .ok (wOneRegionView, some 0) ∧
    (0 : Nat) ∉ ([] : List Nat) ∧
    DmStats_get_item (collectRegions wOneRegionView []) 0 =
      .ok (collectRegions wOneRegionView [], some 0) ∧
    DmStatsRegion_get_item wOneRegionView 0 0 = .ok (wOneAreaView, some 1) ∧
    (1 : Nat) ∉ ([] : List Nat) ∧
    DmStatsRegion_get_item (collectAreas wOneAreaView []) 0 0 =
      .ok (collectAreas wOneAreaView [], some 1) :=
  ⟨by decide, by decide,
   C1_cached_view_identity.1 wOneRegion wOneRegionView 0 0 [] (by decide)
     (by decide),
   by decide, by decide,
   C1_cached_view_identity.2 wOneRegionView wOneAreaView 0 0 1 [] (by decide)
     (by decide)⟩

/-- C7: indexed access on the aggregate fails with an index error for every
id outside the cache bounds, and returns `None` (not an error) for every
in-range id whose region the native layer reports absent. -/
theorem C7_get_item_bounds_and_none :
    ∀ (w : DmpyWorld) (i : Int),
      ((i < 0 ∨ (w.stats.ob_regions.length : Int) ≤ i) →
        DmStats_get_item w i =
          .error (.indexError "DmStats region_id out of range")) ∧
      (0 ≤ i → i < (w.stats.ob_regions.length : Int) →
        dm_stats_region_present w.stats.ob_dms i.toNat = false →
        DmStats_get_item w i = .ok (w, none)) := by
  intro w i
  constructor
  · intro h
    unfold DmStats_get_item
    rw [if_pos h]
  · intro h1 h2 hp
    unfold DmStats_get_item
    rw [if_neg (by omega), if_pos (by simp [hp])]

/-- A world whose region cache has length 2 while the native layer only has
region 0: id 2 is out of bounds, id 1 is in range but not present. -/
def wTwoSlots : DmpyWorld :=
  ⟨⟨⟨[⟨0, 1, false⟩]⟩, 1, [none, none]⟩, [], [], 0⟩

theorem C7_get_item_bounds_and_none_witness :
    (((2 : Int) < 0 ∨ (wTwoSlots.stats.ob_regions.length : Int) ≤ 2) ∧
      DmStats_get_item wTwoSlots 2 =
        .error (.indexError "DmStats region_id out of range")) ∧
    ((0 : Int) ≤ 1 ∧ (1 : Int) < (wTwoSlots.stats.ob_regions.length : Int) ∧
      dm_stats_region_present wTwoSlots.stats.ob_dms (1 : Int).toNat = false ∧
      DmStats_get_item wTwoSlots 1 = .ok (wTwoSlots, none)) :=
  ⟨⟨by decide, (C7_get_item_bounds_and_none wTwoSlots 2).1 (by decide)⟩,
   ⟨by decide, by decide, by decide,
    (C7_get_item_bounds_and_none wTwoSlots 1).2 (by decide) (by decide)
      (by decide)⟩⟩

/-! ### C2: stale Region Views after an invalidating call -/

/-- A freshly constructed, not yet listed aggregate wrapper. -/
def wC2Fresh : DmpyWorld := ⟨⟨⟨[]⟩, 0, []⟩, [], [], 0⟩

/-- The native table returned by a successful `dm_stats_list`: one region
(id 0) with one area. -/
def dmsC2 : DmStatsHandle := ⟨[⟨0, 1, false⟩]⟩

def wC2Listed : DmpyWorld := (DmStats_list wC2Fresh (some dmsC2)).1

/-- `wC2Listed` after `stats[0]` materialised the Region View (id 0). -/
def wC2View : DmpyWorld := cacheNewRegion wC2Listed 0

/-- A second successful `list()` while the view is still referenced. -/
def wC2Relisted : DmpyWorld := (DmStats_list wC2View (some dmsC2)).1

/-- A successful `bind_name()` while the view is still referenced. -/
def wC2Rebound : DmpyWorld := (DmStats_bind_name wC2View "vg0" true).1

/-- C2: evaluation of the code on a Region View that is stale (created at
sequence 1, aggregate now at sequence 2).  The three property getters do
fail with the LookupError, but indexed access into the area cache performs
no sequence check: after a second `list()` it raises IndexError (the
invalidating call emptied the stale view's area cache), and after a
`bind_name()` it silently returns `None`.  This contradicts the claim (and
the comment above `_DmStatsRegion_sequence_check`, which says all
operations on an invalidated view should raise LookupError). -/
theorem C2_stale_view_accessors_evaluated :
    DmStats_get_item wC2Listed 0 = .ok (wC2View, some 0) ∧
    (heapLookup wC2Relisted.regionHeap 0).map (fun r => r.ob_sequence)
      = some 1 ∧
    wC2Relisted.stats.ob_sequence = 2 ∧
    DmStatsRegion_nr_areas_getter wC2Relisted 0 =
      .error (.lookupError
        "Attempt to access regions in changed DmStats object.") ∧
    DmStatsRegion_present_getter wC2Relisted 0 =
      .error (.lookupError
        "Attempt to access regions in changed DmStats object.") ∧
    DmStatsRegion_precise_timestamps_getter wC2Relisted 0 =
      .error (.lookupError
        "Attempt to access regions in changed DmStats object.") ∧
    DmStatsRegion_get_item wC2Relisted 0 0 =
      .error (.indexError "DmStats area_id out of range") ∧
    DmStatsRegion_get_item wC2Rebound 0 0 = .ok (wC2Rebound, none) :=
  ⟨by decide, by decide, by decide, by decide, by decide, by decide,
   by decide, by decide⟩

/-! ### C4: reference counting of the aggregate and its child views

Reference-counting model of `newDmStatsRegionObject` / `newDmStatsAreaObject`
(each does `Py_INCREF(stats)` so its strong reference keeps the parent
alive), `DmStatsRegion_dealloc` / `DmStatsArea_dealloc` (each does
`Py_DECREF(self->ob_stats)`), and `DmStats_dealloc` (destroys the native
handle), under the CPython rule that an object is deallocated exactly when
its reference count reaches zero.  The aggregate's reference count is the
number of caller-held references plus one per live child view. -/

structure RefWorld where
  statsExternalRefs : Nat   -- caller-held references on the DmStats
  liveChildViews : Nat      -- live child views, each holding one strong ref
  statsDeallocated : Bool   -- DmStats_dealloc has run (native handle freed)
  deriving Repr, DecidableEq

def statsRefcount (w : RefWorld) : Nat :=
  w.statsExternalRefs + w.liveChildViews

/-- A child view constructor: `Py_INCREF(stats)`. -/
def newChildView (w : RefWorld) : RefWorld :=
  { w with liveChildViews := w.liveChildViews + 1 }

/-- The caller drops one of its references to the aggregate; if the count
reaches zero, `DmStats_dealloc` runs. -/
def dropStatsRef (w : RefWorld) : RefWorld :=
  let w := { w with statsExternalRefs := w.statsExternalRefs - 1 }
  if statsRefcount w = 0 then { w with statsDeallocated := true } else w

/-- The caller drops its last reference to one child view; the view's
destructor does `Py_DECREF(ob_stats)`, which may in turn deallocate the
aggregate. -/
def dropChildViewRef (w : RefWorld) : RefWorld :=
  let w := { w with liveChildViews := w.liveChildViews - 1 }
  if statsRefcount w = 0 then { w with statsDeallocated := true } else w

/-- C4: every child view constructor adds a strong reference to the parent;
dropping the caller's only aggregate reference while a child view is live
does not deallocate the aggregate (or its native handle); deallocation
happens exactly when the last reference -- caller-held or child-held -- is
dropped. -/
theorem C4_strong_up_weak_down_lifetime :
    ∀ w : RefWorld,
      (statsRefcount (newChildView w) = statsRefcount w + 1) ∧
      (w.statsDeallocated = false → w.statsExternalRefs = 1 →
        0 < w.liveChildViews →
        (dropStatsRef w).statsDeallocated = false) ∧
      ((dropStatsRef w).statsDeallocated = true → w.statsDeallocated = false →
        w.statsExternalRefs ≤ 1 ∧ w.liveChildViews = 0) ∧
      ((dropChildViewRef w).statsDeallocated = true →
        w.statsDeallocated = false →
        w.statsExternalRefs = 0 ∧ w.liveChildViews ≤ 1) ∧
      (w.statsDeallocated = false → w.statsExternalRefs = 0 →
        w.liveChildViews = 1 →
        (dropChildViewRef w).statsDeallocated = true) := by
  intro w
  have hdrop : dropStatsRef w =
      if w.statsExternalRefs - 1 + w.liveChildViews = 0 then
        ⟨w.statsExternalRefs - 1, w.liveChildViews, true⟩
      else ⟨w.statsExternalRefs - 1, w.liveChildViews, w.statsDeallocated⟩ := by
    unfold dropStatsRef statsRefcount
    rfl
  have hdropc : dropChildViewRef w =
      if w.statsExternalRefs + (w.liveChildViews - 1) = 0 then
        ⟨w.statsExternalRefs, w.liveChildViews - 1, true⟩
      else ⟨w.statsExternalRefs, w.liveChildViews - 1, w.statsDeallocated⟩ := by
    unfold dropChildViewRef statsRefcount
    rfl
  refine ⟨?_, ?_, ?_, ?_, ?_⟩
  · simp [newChildView, statsRefcount]
    omega
  · intro hd he hc
    rw [hdrop]
    split
    · next hz => omega
    · simpa using hd
  · intro h hd
    rw [hdrop] at h
    revert h
    split
    · next hz =>
      intro _
      omega
    · intro h
      simp [hd] at h
  · intro h hd
    rw [hdropc] at h
    revert h
    split
    · next hz =>
      intro _
      omega
    · intro h
      simp [hd] at h
  · intro hd he hc
    rw [hdropc]
    split
    · simp
    · next hz => omega

theorem C4_strong_up_weak_down_lifetime_witness :
    (statsRefcount (newChildView ⟨1, 1, false⟩) =
      statsRefcount ⟨1, 1, false⟩ + 1) ∧
    (dropStatsRef ⟨1, 1, false⟩).statsDeallocated = false ∧
    (dropChildViewRef ⟨0, 1, false⟩).statsDeallocated = true :=
  ⟨(C4_strong_up_weak_down_lifetime ⟨1, 1, false⟩).1,
   (C4_strong_up_weak_down_lifetime ⟨1, 1, false⟩).2.1 (by decide) (by decide)
     (by decide),
   (C4_strong_up_weak_down_lifetime ⟨0, 1, false⟩).2.2.2.2 (by decide)
     (by decide) (by decide)⟩

/-! ### C5: DmStats construction -/

/-- How a successfully constructed aggregate wrapper is bound. -/
inductive DmStatsBindResult where
  | unbound
  | boundName
  | boundUuid
  | boundDevno
  deriving Repr, DecidableEq

/-- A construction failure: raised either before `dm_stats_create` (no
native handle exists yet) or after it (`handleDestroyed` records whether the
`fail:` path called `dm_stats_destroy`). -/
inductive DmStatsInitErr where
  | beforeCreate (e : PyErr)
  | afterCreate (e : PyErr) (handleDestroyed : Bool)
  deriving Repr, DecidableEq

def DMSTATS_init_KWARG_ERR : String :=
  "Please specify one of name=, uuid=, or major= and minor= keyword arguments."

/-- `DmStats_init`: keyword conflict checks, `dm_stats_create`, then at most
one `dm_stats_bind_*` call.  C truthiness: a selector counts as supplied
when the string pointer is non-NULL (`name`/`uuid`, even if empty) or the
int is nonzero (`major`/`minor`).  `create_ok` / `bind_ok` are the native
outcomes. -/
def DmStats_init (name uuid : Option String) (major minor : Int)
    (create_ok bind_ok : Bool) : Except DmStatsInitErr DmStatsBindResult :=
  if name.isSome ∧ (uuid.isSome ∨ major ≠ 0 ∨ minor ≠ 0) then
    .error (.beforeCreate (.typeError DMSTATS_init_KWARG_ERR))
  else if uuid.isSome ∧ (major ≠ 0 ∨ minor ≠ 0) then
    .error (.beforeCreate (.typeError DMSTATS_init_KWARG_ERR))
  else if ¬ create_ok then
    .error (.beforeCreate (.memoryError "Failed to allocated DmStats handle."))
  else if name.isSome then
    if ¬ bind_ok then
      .error (.afterCreate
        (.osError "Failed to bind name to DmStatst handle.") true)
    else
      .ok .boundName
  else if uuid.isSome then
    if ¬ bind_ok then
      .error (.afterCreate
        (.osError "Failed to bind uuid to DmStatst handle.") true)
    else
      .ok .boundUuid
  else if major ≠ 0 then
    if minor = 0 then
      .error (.afterCreate (.valueError "Missing minor= keyword argument.") true)
    else if ¬ bind_ok then
      .error (.afterCreate
        (.osError "Failed to bind devno to DmStatst handle.") true)
    else
      .ok .boundDevno
  else if minor ≠ 0 then
    .error (.afterCreate (.valueError "Missing major= keyword argument.") true)
  else
    .ok .unbound

/-- C5 counterexample: supplying ZERO identity selectors does not fail with
a configuration error -- construction succeeds, leaving the handle unbound
(the wrapper can be bound later with `bind_name` / `bind_uuid` /
`bind_devno`).  The claim requires this call to fail. -/
theorem C5_counterexample_zero_selectors_accepted :
    DmStats_init none none 0 0 true true = .ok .unbound := by
  decide

/-- C5 amended: construction fails with a configuration error whenever MORE
than one selector is supplied (or when exactly one of major/minor is
nonzero, after handle creation); with zero selectors it succeeds without
binding; and whenever a single selector is supplied but native binding
fails, construction fails with an OS-level error and the `fail:` path
destroys the native handle, so no partial object is exposed. -/
theorem C5_init_selector_discipline :
    ∀ (name uuid : Option String) (major minor : Int) (bind_ok : Bool),
      (name.isSome → (uuid.isSome ∨ major ≠ 0 ∨ minor ≠ 0) →
        DmStats_init name uuid major minor true bind_ok =
          .error (.beforeCreate (.typeError DMSTATS_init_KWARG_ERR))) ∧
      (name = none → uuid.isSome → (major ≠ 0 ∨ minor ≠ 0) →
        DmStats_init name uuid major minor true bind_ok =
          .error (.beforeCreate (.typeError DMSTATS_init_KWARG_ERR))) ∧
      (name = none → uuid = none → major = 0 → minor = 0 →
        DmStats_init name uuid major minor true bind_ok = .ok .unbound) ∧
      (name.isSome → uuid = none → major = 0 → minor = 0 → bind_ok = false →
        DmStats_init name uuid major minor true bind_ok =
          .error (.afterCreate
            (.osError "Failed to bind name to DmStatst handle.") true)) ∧
      (name = none → uuid.isSome → major = 0 → minor = 0 → bind_ok = false →
        DmStats_init name uuid major minor true bind_ok =
          .error (.afterCreate
            (.osError "Failed to bind uuid to DmStatst handle.") true)) ∧
      (name = none → uuid = none → major ≠ 0 → minor ≠ 0 → bind_ok = false →
        DmStats_init name uuid major minor true bind_ok =
          .error (.afterCreate
            (.osError "Failed to bind devno to DmStatst handle.") true)) ∧
      (name = none → uuid = none → major ≠ 0 → minor = 0 →
        DmStats_init name uuid major minor true bind_ok =
          .error (.afterCreate
            (.valueError "Missing minor= keyword argument.") true)) ∧
      (name = none → uuid = none → major = 0 → minor ≠ 0 →
        DmStats_init name uuid major minor true bind_ok =
          .error (.afterCreate
            (.valueError "Missing major= keyword argument.") true)) := by
  intro name uuid major minor bind_ok
  refine ⟨?_, ?_, ?_, ?_, ?_, ?_, ?_, ?_⟩
  · intro h1 h2
    simp [DmStats_init, h1, h2]
  · intro h1 h2 h3
    simp [DmStats_init, h1, h2, h3]
  · intro h1 h2 h3 h4
    simp [DmStats_init, h1, h2, h3, h4]
  · intro h1 h2 h3 h4 h5
    simp [DmStats_init, h1, h2, h3, h4, h5]
  · intro h1 h2 h3 h4 h5
    simp [DmStats_init, h1, h2, h3, h4, h5]
  · intro h1 h2 h3 h4 h5
    simp [DmStats_init, h1, h2, h3, h4, h5]
  · intro h1 h2 h3 h4
    simp [DmStats_init, h1, h2, h3, h4]
  · intro h1 h2 h3 h4
    simp [DmStats_init, h1, h2, h3, h4]

theorem C5_init_selector_discipline_witness :
    ((some "vg0" : Option String).isSome ∧
      ((some "uuid0" : Option String).isSome ∨ (0 : Int) ≠ 0 ∨ (0 : Int) ≠ 0) ∧
      DmStats_init (some "vg0") (some "uuid0") 0 0 true true =
        .error (.beforeCreate (.typeError DMSTATS_init_KWARG_ERR))) ∧
    ((some "vg0" : Option String).isSome ∧
      DmStats_init (some "vg0") none 0 0 true false =
        .error (.afterCreate
          (.osError "Failed to bind name to DmStatst handle.") true)) :=
  ⟨⟨by decide, by decide,
    (C5_init_selector_discipline (some "vg0") (some "uuid0") 0 0 true).1
      (by decide) (by decide)⟩,
   ⟨by decide,
    (C5_init_selector_discipline (some "vg0") none 0 0 false).2.2.2.1
      (by decide) (by decide) (by decide) (by decide) (by decide)⟩⟩
